import Mathlib

/-!
Verification development for the Adzuna MCP server (`src/server.py`).

The Python module is a thin adapter over the Adzuna REST API: a request
dispatcher `make_request` that injects credentials, performs one GET and maps
non-success responses to an error, plus tool wrappers (`search_jobs`,
`get_categories`, `get_salary_histogram`, `get_top_companies`, `get_geodata`,
`get_salary_history`, `get_api_version`) that assemble query parameters.

The embedding below models the observable behaviour of those functions:
Python dicts become association lists with in-place-overwrite insertion,
the HTTP layer becomes an explicit `HttpResponse` input (status code plus
the result of `response.json()`), and raised exceptions become an explicit
error type.
-/

namespace Adzuna

/-- A JSON value, as produced by `response.json()`. Objects keep their fields
as an association list (the parsed Python dict, so keys are unique). -/
inductive Json where
  | null : Json
  | bool : Bool → Json
  | num : Int → Json
  | str : String → Json
  | arr : List Json → Json
  | obj : List (String × Json) → Json

/-- A query-parameter value: the Python code stores strings and ints in the
`params` dicts (booleans are encoded by the code itself as the string "1"). -/
inductive PValue where
  | str : String → PValue
  | int : Int → PValue
deriving DecidableEq

/-- A Python dict of query parameters, modelled as an insertion-ordered
association list. -/
abbrev ParamDict := List (String × PValue)

/-- Lookup in a parameter dict (first matching key; dicts built by the code
never hold duplicate keys). -/
def dictLookup (d : ParamDict) (k : String) : Option PValue :=
  match d with
  | [] => none
  | (k1, v) :: rest => if k1 = k then some v else dictLookup rest k

/-- `d[k] = v` on a Python dict: overwrite in place if the key exists,
otherwise append at the end. -/
def dictInsert (d : ParamDict) (k : String) (v : PValue) : ParamDict :=
  match d with
  | [] => [(k, v)]
  | (k1, v1) :: rest =>
      if k1 = k then (k, v) :: rest else (k1, v1) :: dictInsert rest k v

/-- `d.update(other)`: insert each entry of `other` into `d` in order. -/
def dictUpdate (d : ParamDict) (other : ParamDict) : ParamDict :=
  other.foldl (fun acc p => dictInsert acc p.1 p.2) d

/-- `if cond: params[k] = v` — the conditional-insertion pattern used by every
tool wrapper. -/
def addIf (cond : Bool) (k : String) (v : PValue) (d : ParamDict) : ParamDict :=
  if cond then dictInsert d k v else d

/-- Python truthiness of an `Optional[str]` argument: `None` and `""` are
falsy. -/
def truthyStr : Option String → Bool
  | none => false
  | some s => !(s == "")

/-- Python truthiness of an `Optional[int]` argument: `None` and `0` are
falsy. -/
def truthyInt : Option Int → Bool
  | none => false
  | some n => !(n == 0)

/-- Python truthiness of an `Optional[bool]` argument: only `True` is truthy
(`None` and `False` are falsy). -/
def truthyBool : Option Bool → Bool
  | none => false
  | some b => b

theorem dictLookup_dictInsert (d : ParamDict) (k k1 : String) (v : PValue) :
    dictLookup (dictInsert d k v) k1 =
      if k1 = k then some v else dictLookup d k1 := by
  induction d with
  | nil =>
      by_cases h : k1 = k
      · subst h; simp [dictInsert, dictLookup]
      · have h2 : ¬ (k = k1) := fun hh => h hh.symm
        simp [dictInsert, dictLookup, h, h2]
  | cons hd tl ih =>
      obtain ⟨k0, v0⟩ := hd
      by_cases h0 : k0 = k
      · subst h0
        by_cases h1 : k1 = k0
        · subst h1; simp [dictInsert, dictLookup]
        · have h2 : ¬ (k0 = k1) := fun hh => h1 hh.symm
          simp [dictInsert, dictLookup, h1, h2]
      · by_cases h1 : k0 = k1
        · subst h1
          simp [dictInsert, dictLookup, h0]
        · simp [dictInsert, dictLookup, h0, h1, ih]

theorem dictLookup_addIf (c : Bool) (k k1 : String) (v : PValue) (d : ParamDict) :
    dictLookup (addIf c k v d) k1 =
      if k1 = k then (if c then some v else dictLookup d k1)
      else dictLookup d k1 := by
  cases c <;> simp [addIf, dictLookup_dictInsert]

theorem dictLookup_eq_none_of_not_mem (d : ParamDict) (k : String)
    (h : k ∉ d.map Prod.fst) : dictLookup d k = none := by
  induction d with
  | nil => rfl
  | cons hd tl ih =>
      obtain ⟨k0, v0⟩ := hd
      simp only [List.map_cons, List.mem_cons] at h
      push_neg at h
      have hne : ¬ (k0 = k) := fun hh => h.1 hh.symm
      simp [dictLookup, hne, ih h.2]

theorem dictLookup_dictUpdate_of_not_mem (d other : ParamDict) (k : String)
    (h : k ∉ other.map Prod.fst) :
    dictLookup (dictUpdate d other) k = dictLookup d k := by
  induction other generalizing d with
  | nil => rfl
  | cons hd tl ih =>
      obtain ⟨k0, v0⟩ := hd
      simp only [List.map_cons, List.mem_cons] at h
      push_neg at h
      have hne : ¬ (k = k0) := h.1
      calc dictLookup (dictUpdate (dictInsert d k0 v0) tl) k
          = dictLookup (dictInsert d k0 v0) k := ih _ h.2
        _ = dictLookup d k := by simp [dictLookup_dictInsert, hne]

theorem dictLookup_dictUpdate (d other : ParamDict) (k : String)
    (h : (other.map Prod.fst).Nodup) :
    dictLookup (dictUpdate d other) k =
      (dictLookup other k).orElse (fun _ => dictLookup d k) := by
  induction other generalizing d with
  | nil => simp [dictUpdate, dictLookup]
  | cons hd tl ih =>
      obtain ⟨k0, v0⟩ := hd
      simp only [List.map_cons, List.nodup_cons] at h
      by_cases hk : k0 = k
      · subst hk
        have hnone : dictLookup tl k0 = none :=
          dictLookup_eq_none_of_not_mem tl k0 h.1
        calc dictLookup (dictUpdate (dictInsert d k0 v0) tl) k0
            = (dictLookup tl k0).orElse
                (fun _ => dictLookup (dictInsert d k0 v0) k0) := ih _ h.2
          _ = dictLookup (dictInsert d k0 v0) k0 := by simp [hnone, Option.orElse]
          _ = some v0 := by simp [dictLookup_dictInsert]
          _ = (dictLookup ((k0, v0) :: tl) k0).orElse
                (fun _ => dictLookup d k0) := by simp [dictLookup, Option.orElse]
      · calc dictLookup (dictUpdate (dictInsert d k0 v0) tl) k
            = (dictLookup tl k).orElse
                (fun _ => dictLookup (dictInsert d k0 v0) k) := ih _ h.2
          _ = (dictLookup tl k).orElse (fun _ => dictLookup d k) := by
              have hne : ¬ (k = k0) := fun hh => hk hh.symm
              simp [dictLookup_dictInsert, hne]
          _ = (dictLookup ((k0, v0) :: tl) k).orElse
                (fun _ => dictLookup d k) := by simp [dictLookup, hk]

/-- `BASE_URL = "https://api.adzuna.com/v1/api"` from `server.py`. -/
def BASE_URL : String := "https://api.adzuna.com/v1/api"

/-- The validated credential pair (`ADZUNA_APP_ID`, `ADZUNA_APP_KEY`) after
startup succeeds. -/
structure Credentials where
  app_id : String
  app_key : String

/-- Python `not s` for an `Optional[str]`: true for `None` and for `""`. -/
def pyFalsyStr : Option String → Bool
  | none => true
  | some s => s == ""

/-- The module-level credential validation: `os.getenv` yields an optional
string for each variable, and the module raises `ValueError` when
`not ADZUNA_APP_ID or not ADZUNA_APP_KEY`. -/
def startup (adzuna_app_id adzuna_app_key : Option String) :
    Except String Credentials :=
  if pyFalsyStr adzuna_app_id || pyFalsyStr adzuna_app_key then
    Except.error ("Missing Adzuna API credentials. " ++
      "Please set ADZUNA_APP_ID and ADZUNA_APP_KEY in your .env file.")
  else
    Except.ok { app_id := adzuna_app_id.getD "", app_key := adzuna_app_key.getD "" }

/-- `get_auth_params()`: the dict of the two credential query parameters. -/
def get_auth_params (cfg : Credentials) : ParamDict :=
  [("app_id", PValue.str cfg.app_id), ("app_key", PValue.str cfg.app_key)]

/-- One upstream HTTP response, as `make_request` observes it: the status
code and the outcome of `response.json()` (`none` when the body is not
parseable JSON, so that `.json()` raises `JSONDecodeError`). -/
structure HttpResponse where
  status : Nat
  body : Option Json

/-- An exception escaping `make_request`:
`apiError msg` is the `Exception(f"API Error {status}: {display}")` the code
raises itself; `jsonDecodeError` is the error `response.json()` raises on an
unparseable body; `attributeError` is what `.get` raises when the parsed
error body is not a dict. -/
inductive PyExn where
  | apiError : String → PyExn
  | jsonDecodeError : PyExn
  | attributeError : PyExn

/-- Outcome of the dispatcher: the parsed JSON body, or a raised exception. -/
inductive ReqResult where
  | ok : Json → ReqResult
  | exn : PyExn → ReqResult

/-- The single outbound GET request issued by `make_request`: target URL and
query-parameter mapping. -/
structure OutboundRequest where
  url : String
  query : ParamDict

/-- What one call of `make_request` does: the request it sends and the value
or exception it produces. -/
structure DispatchOutcome where
  request : OutboundRequest
  result : ReqResult

/-- Python `str()` of a JSON value, as interpolated into the error f-string.
The composite cases (list/dict) are abbreviated; no error body relevant to
the claims carries a composite `display` value. -/
def pyStr : Json → String
  | Json.str s => s
  | Json.num n => toString n
  | Json.bool true => "True"
  | Json.bool false => "False"
  | Json.null => "None"
  | Json.arr _ => "[...]"
  | Json.obj _ => "\x7b...\x7d"

/-- Lookup of a field in a parsed JSON object. -/
def jsonLookup (fields : List (String × Json)) (k : String) : Option Json :=
  match fields with
  | [] => none
  | (k1, v) :: rest => if k1 = k then some v else jsonLookup rest k

/-- `error_data.get("display", "Unknown error")`, then `str()` applied by the
f-string. -/
def displayMessage (fields : List (String × Json)) : String :=
  match jsonLookup fields "display" with
  | some v => pyStr v
  | none => "Unknown error"

/-- `make_request(endpoint, params)` from `server.py`, with the HTTP exchange
made explicit: it merges `params` into the auth dict when `params` is truthy
(a non-`None`, non-empty dict), GETs `BASE_URL/endpoint` with that query, and
on `status_code != 200` parses the body and raises
`Exception(f"API Error {status}: {body.get('display', 'Unknown error')}")`;
on status 200 it returns `response.json()`. -/
def make_request (cfg : Credentials) (endpoint : String)
    (params : Option ParamDict) (resp : HttpResponse) : DispatchOutcome :=
  let auth_params := get_auth_params cfg
  let auth_params :=
    match params with
    | some p => if !p.isEmpty then dictUpdate auth_params p else auth_params
    | none => auth_params
  { request := { url := BASE_URL ++ "/" ++ endpoint, query := auth_params }
    result :=
      if resp.status ≠ 200 then
        match resp.body with
        | none => ReqResult.exn PyExn.jsonDecodeError
        | some (Json.obj fields) =>
            ReqResult.exn (PyExn.apiError
              ("API Error " ++ toString resp.status ++ ": " ++ displayMessage fields))
        | some _ => ReqResult.exn PyExn.attributeError
      else
        match resp.body with
        | none => ReqResult.exn PyExn.jsonDecodeError
        | some j => ReqResult.ok j }

/-- The argument set of the `search_jobs` tool, with the Python defaults. -/
structure SearchJobsArgs where
  country : String
  keywords : Option String := none
  location : Option String := none
  page : Int := 1
  results_per_page : Int := 10
  salary_min : Option Int := none
  salary_max : Option Int := none
  full_time : Option Bool := none
  part_time : Option Bool := none
  contract : Option Bool := none
  permanent : Option Bool := none
  category : Option String := none
  sort_by : Option String := none
  max_days_old : Option Int := none

/-- The query-parameter dict `search_jobs` builds: `results_per_page` is set
unconditionally, every other field through a truthiness check. -/
def search_jobs_params (a : SearchJobsArgs) : ParamDict :=
  let params : ParamDict := [("results_per_page", PValue.int a.results_per_page)]
  let params := addIf (truthyStr a.keywords) "what" (PValue.str (a.keywords.getD "")) params
  let params := addIf (truthyStr a.location) "where" (PValue.str (a.location.getD "")) params
  let params := addIf (truthyInt a.salary_min) "salary_min" (PValue.int (a.salary_min.getD 0)) params
  let params := addIf (truthyInt a.salary_max) "salary_max" (PValue.int (a.salary_max.getD 0)) params
  let params := addIf (truthyBool a.full_time) "full_time" (PValue.str "1") params
  let params := addIf (truthyBool a.part_time) "part_time" (PValue.str "1") params
  let params := addIf (truthyBool a.contract) "contract" (PValue.str "1") params
  let params := addIf (truthyBool a.permanent) "permanent" (PValue.str "1") params
  let params := addIf (truthyStr a.category) "category" (PValue.str (a.category.getD "")) params
  let params := addIf (truthyStr a.sort_by) "sort_by" (PValue.str (a.sort_by.getD "")) params
  let params := addIf (truthyInt a.max_days_old) "max_days_old" (PValue.int (a.max_days_old.getD 0)) params
  params

/-- `endpoint = f"jobs/{country}/search/{page}"`. -/
def search_jobs_endpoint (a : SearchJobsArgs) : String :=
  "jobs/" ++ a.country ++ "/search/" ++ toString a.page

/-- The `search_jobs` tool: build the params dict, format the endpoint,
forward to `make_request`. -/
def search_jobs (cfg : Credentials) (a : SearchJobsArgs)
    (resp : HttpResponse) : DispatchOutcome :=
  make_request cfg (search_jobs_endpoint a) (some (search_jobs_params a)) resp

/-- The `get_categories` tool: no extra params, endpoint
`f"jobs/{country}/categories"`. -/
def get_categories (cfg : Credentials) (country : String)
    (resp : HttpResponse) : DispatchOutcome :=
  make_request cfg ("jobs/" ++ country ++ "/categories") none resp

/-- The params dict built by `get_salary_histogram`. -/
def get_salary_histogram_params (keywords location category : Option String) :
    ParamDict :=
  let params : ParamDict := []
  let params := addIf (truthyStr keywords) "what" (PValue.str (keywords.getD "")) params
  let params := addIf (truthyStr location) "where" (PValue.str (location.getD "")) params
  let params := addIf (truthyStr category) "category" (PValue.str (category.getD "")) params
  params

/-- The `get_salary_histogram` tool. -/
def get_salary_histogram (cfg : Credentials) (country : String)
    (keywords location category : Option String) (resp : HttpResponse) :
    DispatchOutcome :=
  make_request cfg ("jobs/" ++ country ++ "/histogram")
    (some (get_salary_histogram_params keywords location category)) resp

/-- The params dict built by `get_top_companies` (same chain as the
histogram tool; the source duplicates it). -/
def get_top_companies_params (keywords location category : Option String) :
    ParamDict :=
  let params : ParamDict := []
  let params := addIf (truthyStr keywords) "what" (PValue.str (keywords.getD "")) params
  let params := addIf (truthyStr location) "where" (PValue.str (location.getD "")) params
  let params := addIf (truthyStr category) "category" (PValue.str (category.getD "")) params
  params

/-- The `get_top_companies` tool. -/
def get_top_companies (cfg : Credentials) (country : String)
    (keywords location category : Option String) (resp : HttpResponse) :
    DispatchOutcome :=
  make_request cfg ("jobs/" ++ country ++ "/top_companies")
    (some (get_top_companies_params keywords location category)) resp

/-- The params dict built by `get_geodata`. -/
def get_geodata_params (keywords location category : Option String) :
    ParamDict :=
  let params : ParamDict := []
  let params := addIf (truthyStr keywords) "what" (PValue.str (keywords.getD "")) params
  let params := addIf (truthyStr location) "where" (PValue.str (location.getD "")) params
  let params := addIf (truthyStr category) "category" (PValue.str (category.getD "")) params
  params

/-- The `get_geodata` tool. -/
def get_geodata (cfg : Credentials) (country : String)
    (keywords location category : Option String) (resp : HttpResponse) :
    DispatchOutcome :=
  make_request cfg ("jobs/" ++ country ++ "/geodata")
    (some (get_geodata_params keywords location category)) resp

/-- The params dict built by `get_salary_history` (adds the optional
`months` integer). -/
def get_salary_history_params (keywords location category : Option String)
    (months : Option Int) : ParamDict :=
  let params : ParamDict := []
  let params := addIf (truthyStr keywords) "what" (PValue.str (keywords.getD "")) params
  let params := addIf (truthyStr location) "where" (PValue.str (location.getD "")) params
  let params := addIf (truthyStr category) "category" (PValue.str (category.getD "")) params
  let params := addIf (truthyInt months) "months" (PValue.int (months.getD 0)) params
  params

/-- The `get_salary_history` tool. -/
def get_salary_history (cfg : Credentials) (country : String)
    (keywords location category : Option String) (months : Option Int)
    (resp : HttpResponse) : DispatchOutcome :=
  make_request cfg ("jobs/" ++ country ++ "/history")
    (some (get_salary_history_params keywords location category months)) resp

/-- The `get_api_version` tool: `make_request("version")`. -/
def get_api_version (cfg : Credentials) (resp : HttpResponse) : DispatchOutcome :=
  make_request cfg "version" none resp

/-- A concrete credential pair used for witness instantiations. -/
def testCfg : Credentials := { app_id := "test-id", app_key := "test-key" }

theorem dictLookup_make_request_query_of_not_mem (cfg : Credentials)
    (endpoint : String) (p : ParamDict) (resp : HttpResponse) (k : String)
    (h : k ∉ p.map Prod.fst) :
    dictLookup (make_request cfg endpoint (some p) resp).request.query k
      = dictLookup (get_auth_params cfg) k := by
  simp only [make_request]
  split
  · exact dictLookup_dictUpdate_of_not_mem _ p k h
  · rfl

/-- Claim C1 (counterexample): the claim says `make_request` succeeds for
every HTTP status in [200,299], but the code tests `status_code != 200`, so
a 201 response raises instead of returning the body. -/
theorem make_request_2xx_range_false :
    ¬ (∀ (s : Nat) (j : Json), 200 ≤ s → s ≤ 299 →
        (make_request testCfg "version" none { status := s, body := some j }).result
          = ReqResult.ok j) := by
  intro h
  have h2 := h 201 (Json.obj []) (by decide) (by decide)
  simp [make_request, displayMessage, jsonLookup] at h2

/-- Claim C1 (amended): `make_request` returns the parsed JSON body `j`
exactly when the HTTP status equals 200 and the body parses to `j`; every
other status makes the call fail. -/
theorem make_request_success_iff (cfg : Credentials) (endpoint : String)
    (params : Option ParamDict) (resp : HttpResponse) (j : Json) :
    (make_request cfg endpoint params resp).result = ReqResult.ok j ↔
      (resp.status = 200 ∧ resp.body = some j) := by
  cases resp with
  | mk status body =>
      cases body with
      | none => by_cases hs : status = 200 <;> simp [make_request, hs]
      | some j0 =>
          by_cases hs : status = 200
          · simp [make_request, hs]
          · cases j0 <;> simp [make_request, hs]

/-- Claim C2 (counterexample): the claim says a non-success response with an
unparseable body still fails with the `API Error {status}: ...` message
shape, but the code calls `response.json()` first, so the raised exception
is the JSON decode error, not the formatted API error. -/
theorem make_request_unparseable_body_shape_false :
    ¬ (∀ (resp : HttpResponse), resp.status ≠ 200 →
        ∃ msg, (make_request testCfg "version" none resp).result
          = ReqResult.exn (PyExn.apiError msg)) := by
  intro h
  obtain ⟨msg, hmsg⟩ := h { status := 401, body := none } (by decide)
  simp [make_request] at hmsg

/-- Claim C2 (amended): for every response with status other than 200 whose
body parses to a JSON object, `make_request` raises an error whose message
contains the numeric status and the body's `display` value (or the
placeholder "Unknown error" when `display` is absent); when the body is not
parseable JSON the call instead fails with the JSON decode error. -/
theorem make_request_error_message (cfg : Credentials) (endpoint : String)
    (params : Option ParamDict) (s : Nat) (fields : List (String × Json))
    (h : s ≠ 200) :
    (∃ msg,
      (make_request cfg endpoint params
          { status := s, body := some (Json.obj fields) }).result
        = ReqResult.exn (PyExn.apiError msg) ∧
      (∃ u v, msg = u ++ toString s ++ v) ∧
      (∃ u v, msg = u ++ displayMessage fields ++ v)) ∧
    (make_request cfg endpoint params { status := s, body := none }).result
      = ReqResult.exn PyExn.jsonDecodeError := by
  constructor
  · refine ⟨"API Error " ++ toString s ++ ": " ++ displayMessage fields, ?_,
      ⟨"API Error ", ": " ++ displayMessage fields, ?_⟩,
      ⟨"API Error " ++ toString s ++ ": ", "", ?_⟩⟩
    · simp [make_request, h]
    · simp [String.append_assoc]
    · simp
  · simp [make_request, h]

/-- Claim C2 witness: a 401 response with body
`{"display": "Invalid credentials"}` fails with a message containing both
"401" and "Invalid credentials"; a 401 response with an unparseable body
fails with the JSON decode error. -/
theorem make_request_error_message_witness :
    (∃ msg,
      (make_request testCfg "jobs/gb/search/1" none
          { status := 401,
            body := some (Json.obj [("display", Json.str "Invalid credentials")]) }).result
        = ReqResult.exn (PyExn.apiError msg) ∧
      (∃ u v, msg = u ++ toString 401 ++ v) ∧
      (∃ u v, msg = u ++ displayMessage [("display", Json.str "Invalid credentials")] ++ v)) ∧
    (make_request testCfg "jobs/gb/search/1" none
        { status := 401, body := none }).result
      = ReqResult.exn PyExn.jsonDecodeError :=
  make_request_error_message testCfg "jobs/gb/search/1" none 401
    [("display", Json.str "Invalid credentials")] (by decide)

/-- Claim C3: for every tool wrapper and every optional argument left unset
(`None`), the parameter mapping the wrapper builds excludes that argument's
key entirely. -/
theorem unset_optional_args_excluded (a : SearchJobsArgs)
    (kw loc cat : Option String) (months : Option Int) :
    dictLookup (search_jobs_params { a with keywords := none }) "what" = none ∧
    dictLookup (search_jobs_params { a with location := none }) "where" = none ∧
    dictLookup (search_jobs_params { a with salary_min := none }) "salary_min" = none ∧
    dictLookup (search_jobs_params { a with salary_max := none }) "salary_max" = none ∧
    dictLookup (search_jobs_params { a with full_time := none }) "full_time" = none ∧
    dictLookup (search_jobs_params { a with part_time := none }) "part_time" = none ∧
    dictLookup (search_jobs_params { a with contract := none }) "contract" = none ∧
    dictLookup (search_jobs_params { a with permanent := none }) "permanent" = none ∧
    dictLookup (search_jobs_params { a with category := none }) "category" = none ∧
    dictLookup (search_jobs_params { a with sort_by := none }) "sort_by" = none ∧
    dictLookup (search_jobs_params { a with max_days_old := none }) "max_days_old" = none ∧
    dictLookup (get_salary_histogram_params none loc cat) "what" = none ∧
    dictLookup (get_salary_histogram_params kw none cat) "where" = none ∧
    dictLookup (get_salary_histogram_params kw loc none) "category" = none ∧
    dictLookup (get_top_companies_params none loc cat) "what" = none ∧
    dictLookup (get_top_companies_params kw none cat) "where" = none ∧
    dictLookup (get_top_companies_params kw loc none) "category" = none ∧
    dictLookup (get_geodata_params none loc cat) "what" = none ∧
    dictLookup (get_geodata_params kw none cat) "where" = none ∧
    dictLookup (get_geodata_params kw loc none) "category" = none ∧
    dictLookup (get_salary_history_params none loc cat months) "what" = none ∧
    dictLookup (get_salary_history_params kw none cat months) "where" = none ∧
    dictLookup (get_salary_history_params kw loc none months) "category" = none ∧
    dictLookup (get_salary_history_params kw loc cat none) "months" = none := by
  repeat' apply And.intro
  all_goals
    simp [search_jobs_params, get_salary_histogram_params, get_top_companies_params,
      get_geodata_params, get_salary_history_params, dictLookup_addIf,
      truthyStr, truthyInt, truthyBool, dictLookup]

/-- Claim C4: each boolean flag of `search_jobs` (`full_time`, `part_time`,
`contract`, `permanent`) maps its key to the literal string "1" when supplied
as true, and is absent from the mapping when false or unset. -/
theorem boolean_flags_encoded_as_one (a : SearchJobsArgs) :
    dictLookup (search_jobs_params { a with full_time := some true }) "full_time"
      = some (PValue.str "1") ∧
    dictLookup (search_jobs_params { a with full_time := some false }) "full_time" = none ∧
    dictLookup (search_jobs_params { a with full_time := none }) "full_time" = none ∧
    dictLookup (search_jobs_params { a with part_time := some true }) "part_time"
      = some (PValue.str "1") ∧
    dictLookup (search_jobs_params { a with part_time := some false }) "part_time" = none ∧
    dictLookup (search_jobs_params { a with part_time := none }) "part_time" = none ∧
    dictLookup (search_jobs_params { a with contract := some true }) "contract"
      = some (PValue.str "1") ∧
    dictLookup (search_jobs_params { a with contract := some false }) "contract" = none ∧
    dictLookup (search_jobs_params { a with contract := none }) "contract" = none ∧
    dictLookup (search_jobs_params { a with permanent := some true }) "permanent"
      = some (PValue.str "1") ∧
    dictLookup (search_jobs_params { a with permanent := some false }) "permanent" = none ∧
    dictLookup (search_jobs_params { a with permanent := none }) "permanent" = none := by
  repeat' apply And.intro
  all_goals
    simp [search_jobs_params, dictLookup_addIf, truthyBool, dictLookup]

/-- Claim C5: the query mapping `make_request` sends is the union of the
credential pair and `extraParams`, with `extraParams` winning on any key
collision; when `extraParams` is absent the query is exactly the credential
pair. -/
theorem make_request_query_union (cfg : Credentials) (endpoint : String)
    (p : ParamDict) (resp : HttpResponse) (k : String)
    (h : (p.map Prod.fst).Nodup) :
    dictLookup (make_request cfg endpoint (some p) resp).request.query k
      = (dictLookup p k).orElse (fun _ => dictLookup (get_auth_params cfg) k) ∧
    (make_request cfg endpoint none resp).request.query = get_auth_params cfg := by
  constructor
  · cases p with
    | nil => simp [make_request, dictLookup, Option.orElse]
    | cons hd tl =>
        simpa [make_request, List.isEmpty] using
          dictLookup_dictUpdate (get_auth_params cfg) (hd :: tl) k h
  · rfl

/-- Claim C5 witness: with an extra-params dict that collides on `app_id`,
the outbound query takes the extra-params value, and a `None` params
argument sends exactly the credential pair. -/
theorem make_request_query_union_witness :
    dictLookup (make_request testCfg "jobs/gb/search/1"
        (some [("app_id", PValue.str "override"), ("what", PValue.str "python")])
        { status := 200, body := some Json.null }).request.query "app_id"
      = (dictLookup [("app_id", PValue.str "override"), ("what", PValue.str "python")]
            "app_id").orElse
          (fun _ => dictLookup (get_auth_params testCfg) "app_id") ∧
    (make_request testCfg "jobs/gb/search/1" none
        { status := 200, body := some Json.null }).request.query
      = get_auth_params testCfg :=
  make_request_query_union testCfg "jobs/gb/search/1"
    [("app_id", PValue.str "override"), ("what", PValue.str "python")]
    { status := 200, body := some Json.null } "app_id" (by decide)

/-- Claim C6: `search_jobs` builds the endpoint path
`jobs/{country}/search/{page}` exactly, with the page integer reproduced
verbatim, and the dispatched URL is the base URL followed by that path. -/
theorem search_jobs_endpoint_template (cfg : Credentials) (a : SearchJobsArgs)
    (resp : HttpResponse) :
    search_jobs_endpoint a = "jobs/" ++ a.country ++ "/search/" ++ toString a.page ∧
    (search_jobs cfg a resp).request.url
      = BASE_URL ++ "/" ++ ("jobs/" ++ a.country ++ "/search/" ++ toString a.page) :=
  ⟨rfl, rfl⟩

/-- Claim C7: `search_jobs` treats a supplied 0 for `salary_min`,
`salary_max` or `max_days_old` the same as unset (the key is excluded),
while any non-zero value yields the key present with that exact numeric
value; in particular `salary_min=50000` and `salary_max=90000` together
appear with those exact values. -/
theorem zero_numeric_filters_excluded (a : SearchJobsArgs) (m1 m2 m3 : Int)
    (h1 : m1 ≠ 0) (h2 : m2 ≠ 0) (h3 : m3 ≠ 0) :
    dictLookup (search_jobs_params { a with salary_min := some 0 }) "salary_min" = none ∧
    dictLookup (search_jobs_params { a with salary_max := some 0 }) "salary_max" = none ∧
    dictLookup (search_jobs_params { a with max_days_old := some 0 }) "max_days_old" = none ∧
    dictLookup (search_jobs_params { a with salary_min := some m1 }) "salary_min"
      = some (PValue.int m1) ∧
    dictLookup (search_jobs_params { a with salary_max := some m2 }) "salary_max"
      = some (PValue.int m2) ∧
    dictLookup (search_jobs_params { a with max_days_old := some m3 }) "max_days_old"
      = some (PValue.int m3) ∧
    dictLookup (search_jobs_params
        { a with salary_min := some 50000, salary_max := some 90000 }) "salary_min"
      = some (PValue.int 50000) ∧
    dictLookup (search_jobs_params
        { a with salary_min := some 50000, salary_max := some 90000 }) "salary_max"
      = some (PValue.int 90000) := by
  repeat' apply And.intro
  all_goals
    simp [search_jobs_params, dictLookup_addIf, truthyInt, dictLookup, h1, h2, h3]

/-- Claim C7 witness: with the other arguments at their defaults,
`salary_min=0` is excluded while `salary_min=50000`, `salary_max=90000` and
`max_days_old=7` appear with those exact values. -/
theorem zero_numeric_filters_excluded_witness :
    dictLookup (search_jobs_params
        { country := "gb", salary_min := some 0 }) "salary_min" = none ∧
    dictLookup (search_jobs_params
        { country := "gb", salary_max := some 0 }) "salary_max" = none ∧
    dictLookup (search_jobs_params
        { country := "gb", max_days_old := some 0 }) "max_days_old" = none ∧
    dictLookup (search_jobs_params
        { country := "gb", salary_min := some 50000 }) "salary_min"
      = some (PValue.int 50000) ∧
    dictLookup (search_jobs_params
        { country := "gb", salary_max := some 90000 }) "salary_max"
      = some (PValue.int 90000) ∧
    dictLookup (search_jobs_params
        { country := "gb", max_days_old := some 7 }) "max_days_old"
      = some (PValue.int 7) ∧
    dictLookup (search_jobs_params
        { country := "gb", salary_min := some 50000, salary_max := some 90000 })
        "salary_min" = some (PValue.int 50000) ∧
    dictLookup (search_jobs_params
        { country := "gb", salary_min := some 50000, salary_max := some 90000 })
        "salary_max" = some (PValue.int 90000) :=
  zero_numeric_filters_excluded { country := "gb" } 50000 90000 7
    (by decide) (by decide) (by decide)

/-- Claim C8: `get_categories(country)` issues its single request to
`{base}/jobs/{country}/categories` with a query mapping that is exactly the
two credential keys `app_id` and `app_key` and nothing else. -/
theorem get_categories_request (cfg : Credentials) (country : String)
    (resp : HttpResponse) :
    (get_categories cfg country resp).request.url
      = BASE_URL ++ "/" ++ ("jobs/" ++ country ++ "/categories") ∧
    (get_categories cfg country resp).request.query
      = [("app_id", PValue.str cfg.app_id), ("app_key", PValue.str cfg.app_key)] :=
  ⟨rfl, rfl⟩

/-- Claim C9: startup fails with the configuration error when either
credential variable is missing (`None`) or empty, and when both are
non-empty strings startup succeeds and every subsequent request (with or
without extra params, none of which use the credential keys) carries both
credentials in its query. -/
theorem startup_credential_validation (oid okey : Option String)
    (i k1 : String) (endpoint : String) (p : ParamDict) (resp : HttpResponse)
    (hi : i ≠ "") (hk : k1 ≠ "")
    (hip : "app_id" ∉ p.map Prod.fst) (hkp : "app_key" ∉ p.map Prod.fst) :
    (∃ e, startup none okey = Except.error e) ∧
    (∃ e, startup (some "") okey = Except.error e) ∧
    (∃ e, startup oid none = Except.error e) ∧
    (∃ e, startup oid (some "") = Except.error e) ∧
    (∃ cfg, startup (some i) (some k1) = Except.ok cfg ∧
      dictLookup (make_request cfg endpoint (some p) resp).request.query "app_id"
        = some (PValue.str i) ∧
      dictLookup (make_request cfg endpoint (some p) resp).request.query "app_key"
        = some (PValue.str k1) ∧
      dictLookup (make_request cfg endpoint none resp).request.query "app_id"
        = some (PValue.str i) ∧
      dictLookup (make_request cfg endpoint none resp).request.query "app_key"
        = some (PValue.str k1)) := by
  refine ⟨?_, ?_, ?_, ?_,
    ⟨{ app_id := i, app_key := k1 }, ?_, ?_, ?_, ?_, ?_⟩⟩
  · simp [startup, pyFalsyStr]
  · simp [startup, pyFalsyStr]
  · simp [startup, pyFalsyStr]
  · simp [startup, pyFalsyStr]
  · simp [startup, pyFalsyStr, hi, hk]
  · rw [dictLookup_make_request_query_of_not_mem _ _ _ _ _ hip]
    simp [get_auth_params, dictLookup]
  · rw [dictLookup_make_request_query_of_not_mem _ _ _ _ _ hkp]
    simp [get_auth_params, dictLookup]
  · simp [make_request, get_auth_params, dictLookup]
  · simp [make_request, get_auth_params, dictLookup]

/-- Claim C9 witness: with both variables set to non-empty strings, startup
succeeds and a request with extra params (and one without) carries both
credentials; with a variable missing or empty, startup fails. -/
theorem startup_credential_validation_witness :
    (∃ e, startup none (some "k") = Except.error e) ∧
    (∃ e, startup (some "") (some "k") = Except.error e) ∧
    (∃ e, startup (some "x") none = Except.error e) ∧
    (∃ e, startup (some "x") (some "") = Except.error e) ∧
    (∃ cfg, startup (some "test-id") (some "test-key") = Except.ok cfg ∧
      dictLookup (make_request cfg "jobs/gb/search/1"
          (some [("what", PValue.str "python")])
          { status := 200, body := some Json.null }).request.query "app_id"
        = some (PValue.str "test-id") ∧
      dictLookup (make_request cfg "jobs/gb/search/1"
          (some [("what", PValue.str "python")])
          { status := 200, body := some Json.null }).request.query "app_key"
        = some (PValue.str "test-key") ∧
      dictLookup (make_request cfg "jobs/gb/search/1" none
          { status := 200, body := some Json.null }).request.query "app_id"
        = some (PValue.str "test-id") ∧
      dictLookup (make_request cfg "jobs/gb/search/1" none
          { status := 200, body := some Json.null }).request.query "app_key"
        = some (PValue.str "test-key")) :=
  startup_credential_validation (some "x") (some "k") "test-id" "test-key"
    "jobs/gb/search/1" [("what", PValue.str "python")]
    { status := 200, body := some Json.null }
    (by decide) (by decide) (by decide) (by decide)

/-- Claim C10: every invocation of `search_jobs` sends `results_per_page`
with the supplied value (default 10); with every optional argument left at
its default, the built mapping is exactly that single entry. -/
theorem results_per_page_always_sent (a : SearchJobsArgs) (country : String) :
    dictLookup (search_jobs_params a) "results_per_page"
      = some (PValue.int a.results_per_page) ∧
    search_jobs_params { country := country } = [("results_per_page", PValue.int 10)] := by
  constructor
  · simp [search_jobs_params, dictLookup_addIf, dictLookup]
  · rfl

end Adzuna
